import Mathlib

/-
  Verification of gstore_fdw.c (pg-strom): shallow embedding of the chunk
  directory, the MVCC visibility filter, the column-buffer builder, the
  chunk writer and the transaction hook, together with theorems settling
  the frozen claims about them.
-/

namespace GStore

/- ---------------------------------------------------------------------
   Alignment and bitmap helpers from the PostgreSQL headers that
   gstore_fdw.c uses (c.h: TYPEALIGN / MAXALIGN / BITMAPLEN).
   --------------------------------------------------------------------- -/

def MAXIMUM_ALIGNOF : Nat := 8

/-- TYPEALIGN(a, sz): round sz up to a multiple of the alignment a. -/
def typealign (a sz : Nat) : Nat := a * ((sz + a - 1) / a)

/-- MAXALIGN(sz) = TYPEALIGN(MAXIMUM_ALIGNOF, sz). -/
def maxalign (sz : Nat) : Nat := typealign MAXIMUM_ALIGNOF sz

/-- BITMAPLEN(n) = (n + 7) / 8 bytes for an n-bit null bitmap. -/
def bitmaplen (n : Nat) : Nat := (n + 7) / 8

def BITS_PER_BYTE : Nat := 8

/- Transaction-id constants (transam.h). Xids are modelled as Nat. -/

def InvalidTransactionId : Nat := 0

def FrozenTransactionId : Nat := 2

def FirstNormalTransactionId : Nat := 3

def transactionIdIsValid (x : Nat) : Bool := x != InvalidTransactionId

/-- TransactionIdIsNormal: a normal xid is ≥ FirstNormalTransactionId. -/
def transactionIdIsNormal (x : Nat) : Bool := decide (FirstNormalTransactionId ≤ x)

def GPUSTORE_CHUNK_SIZE : Nat := 2 ^ 30

def GSTORE_CHUNK_HASH_NSLOTS : Nat := 97

def UINT_MAX : Nat := 4294967295

/- ---------------------------------------------------------------------
   GpuStoreChunk: the shared-memory chunk descriptor.  The `chain` dlist
   node is not carried as data; list membership is modelled by the lists
   inside GpuStoreHead below.
   --------------------------------------------------------------------- -/

structure GpuStoreChunk where
  hash : Nat
  database_oid : Nat
  table_oid : Nat
  xmax : Nat
  xmin : Nat
  cid : Nat
  xmax_commited : Bool
  xmin_commited : Bool
  kds_nitems : Nat
  kds_length : Nat
  cuda_dindex : Int
  ipc_mhandle : Nat
  dsm_handle : Nat
deriving DecidableEq

/-- The transaction-side context a visibility check consults: the MVCC
snapshot (curcid plus the XidInMVCCSnapshot test) and the global
transaction predicates of the host. All are deterministic during one
check, so they are modelled as Bool-valued functions. -/
structure Snapshot where
  curcid : Nat
  isCurrentXid : Nat → Bool
  inMVCCSnapshot : Nat → Bool
  didCommit : Nat → Bool

/- ---------------------------------------------------------------------
   gstore_fdw_satisfies_visibility (gstore_fdw.c lines 115-193).
   The function returns the decision and the (possibly hint-updated)
   descriptor.  It is split exactly along the source's control flow:
   the xmin block either returns early (Sum.inl) or falls through to
   the xmax block (Sum.inr) with the updated descriptor.
   --------------------------------------------------------------------- -/

/-- The xmax half of gstore_fdw_satisfies_visibility (lines 160-192). -/
def visXmaxBlock (s : Snapshot) (c : GpuStoreChunk) : Bool × GpuStoreChunk :=
  if c.xmax = InvalidTransactionId then (true, c)
  else if c.xmax_commited = false then
    (if s.isCurrentXid c.xmax then
      (if s.curcid ≤ c.cid then (true, c) else (false, c))
    else if s.inMVCCSnapshot c.xmax then (true, c)
    else if s.didCommit c.xmax = false then
      (true, { c with xmax := InvalidTransactionId })
    else (false, { c with xmax_commited := true }))
  else
    (if s.inMVCCSnapshot c.xmax then (true, c) else (false, c))

/-- The xmin half of gstore_fdw_satisfies_visibility (lines 118-158):
Sum.inl is an early return, Sum.inr falls through to the xmax block. -/
def visXminBlock (s : Snapshot) (c : GpuStoreChunk) :
    (Bool × GpuStoreChunk) ⊕ GpuStoreChunk :=
  if c.xmin_commited = false then
    (if c.xmin = InvalidTransactionId then .inl (false, c)
    else if s.isCurrentXid c.xmin then
      (if s.curcid ≤ c.cid then .inl (false, c)
      else if c.xmax = InvalidTransactionId then .inl (true, c)
      else if s.isCurrentXid c.xmax = false then
        .inl (true, { c with xmax := InvalidTransactionId })
      else if s.curcid ≤ c.cid then .inl (true, c)
      else .inl (false, c))
    else if s.inMVCCSnapshot c.xmin then .inl (false, c)
    else if s.didCommit c.xmin then .inr { c with xmin_commited := true }
    else .inl (false, { c with xmin := InvalidTransactionId }))
  else
    (if c.xmin ≠ FrozenTransactionId ∧ s.inMVCCSnapshot c.xmin then
      .inl (false, c)
    else .inr c)

/-- gstore_fdw_satisfies_visibility, translated from the source. -/
def gstore_fdw_satisfies_visibility (s : Snapshot) (c : GpuStoreChunk) :
    Bool × GpuStoreChunk :=
  match visXminBlock s c with
  | .inl r => r
  | .inr c1 => visXmaxBlock s c1

/- ---------------------------------------------------------------------
   The five-step decision procedure exactly as the spec (§4.3) words it.
   This second definition follows the spec's text, to be compared with
   the translation of the source above.
   --------------------------------------------------------------------- -/

/-- Spec §4.3 step 5: xmax hinted committed. -/
def specMvccStep5 (s : Snapshot) (c : GpuStoreChunk) : Bool × GpuStoreChunk :=
  if s.inMVCCSnapshot c.xmax then (true, c) else (false, c)

/-- Spec §4.3 steps 3 and 4: the xmax checks; step 4's committed case
sets the hint and falls through to step 5. -/
def specMvccStep34 (s : Snapshot) (c : GpuStoreChunk) : Bool × GpuStoreChunk :=
  if c.xmax = InvalidTransactionId then (true, c)
  else if c.xmax_commited = false then
    (if s.isCurrentXid c.xmax then
      (if s.curcid ≤ c.cid then (true, c) else (false, c))
    else if s.inMVCCSnapshot c.xmax then (true, c)
    else if s.didCommit c.xmax = false then
      (true, { c with xmax := InvalidTransactionId })
    else specMvccStep5 s { c with xmax_commited := true })
  else specMvccStep5 s c

/-- Spec §4.3 step 2: a hinted xmin, not frozen and still in progress
under the snapshot, hides the chunk; otherwise continue with step 3. -/
def specMvccStep2 (s : Snapshot) (c : GpuStoreChunk) : Bool × GpuStoreChunk :=
  if c.xmin ≠ FrozenTransactionId ∧ s.inMVCCSnapshot c.xmin then (false, c)
  else specMvccStep34 s c

/-- The spec's five-step short-circuit visibility procedure (§4.3);
step 1's committed case sets the hint and proceeds with step 2. -/
def specMvccVisibility (s : Snapshot) (c : GpuStoreChunk) : Bool × GpuStoreChunk :=
  if c.xmin_commited = false then
    (if c.xmin = InvalidTransactionId then (false, c)
    else if s.isCurrentXid c.xmin then
      (if s.curcid ≤ c.cid then (false, c)
      else if c.xmax = InvalidTransactionId then (true, c)
      else if s.isCurrentXid c.xmax = false then
        (true, { c with xmax := InvalidTransactionId })
      else if s.curcid ≤ c.cid then (true, c)
      else (false, c))
    else if s.inMVCCSnapshot c.xmin then (false, c)
    else if s.didCommit c.xmin then specMvccStep2 s { c with xmin_commited := true }
    else (false, { c with xmin := InvalidTransactionId }))
  else specMvccStep2 s c

/- ---------------------------------------------------------------------
   Byte layout of struct GpuStoreChunk on an LP64 host, and the record
   effect of gstore_fdw_release_chunk (lines 935-957).  The source
   clears the record with memset(gs_chunk, 0, sizeof(GpuStoreMap)):
   sizeof(GpuStoreMap) is the size of one pointer (8 bytes), which lies
   entirely inside the 16-byte dlist_node `chain` at offset 0, so a
   field is cleared only when its byte range fits below the memset size.
   --------------------------------------------------------------------- -/

def sizeof_GpuStoreMap : Nat := 8

def sizeof_dlist_node : Nat := 16

def off_hash : Nat := 16

def off_database_oid : Nat := 20

def off_table_oid : Nat := 24

def off_xmax : Nat := 28

def off_xmin : Nat := 32

def off_cid : Nat := 36

def off_xmax_commited : Nat := 40

def off_xmin_commited : Nat := 41

def off_kds_nitems : Nat := 44

def off_kds_length : Nat := 48

def off_cuda_dindex : Nat := 52

def off_ipc_mhandle : Nat := 56

def off_dsm_handle : Nat := 120

def sizeof_GpuStoreChunk : Nat := 128

/-- memset(c, 0, n) on a GpuStoreChunk record: a field becomes zero
exactly when its byte range [offset, offset+size) fits inside [0, n).
The two sizes the source uses (sizeof(GpuStoreMap) in release,
sizeof(GpuStoreChunk) in writeout and startup) never split a field. -/
def memsetGpuStoreChunk (c : GpuStoreChunk) (n : Nat) : GpuStoreChunk :=
  { hash := if off_hash + 4 ≤ n then 0 else c.hash,
    database_oid := if off_database_oid + 4 ≤ n then 0 else c.database_oid,
    table_oid := if off_table_oid + 4 ≤ n then 0 else c.table_oid,
    xmax := if off_xmax + 4 ≤ n then 0 else c.xmax,
    xmin := if off_xmin + 4 ≤ n then 0 else c.xmin,
    cid := if off_cid + 4 ≤ n then 0 else c.cid,
    xmax_commited := if off_xmax_commited + 1 ≤ n then false else c.xmax_commited,
    xmin_commited := if off_xmin_commited + 1 ≤ n then false else c.xmin_commited,
    kds_nitems := if off_kds_nitems + 4 ≤ n then 0 else c.kds_nitems,
    kds_length := if off_kds_length + 4 ≤ n then 0 else c.kds_length,
    cuda_dindex := if off_cuda_dindex + 4 ≤ n then 0 else c.cuda_dindex,
    ipc_mhandle := if off_ipc_mhandle + 64 ≤ n then 0 else c.ipc_mhandle,
    dsm_handle := if off_dsm_handle + 4 ≤ n then 0 else c.dsm_handle }

/-- The record transformation of gstore_fdw_release_chunk: the memset
uses sizeof(GpuStoreMap), then dsm_handle is set to UINT_MAX before the
descriptor is pushed onto free_chunks.  (The GPU IPC release and the
local-mapping detach are side effects outside the record.) -/
def releaseChunkRecord (c : GpuStoreChunk) : GpuStoreChunk :=
  { memsetGpuStoreChunk c sizeof_GpuStoreMap with dsm_handle := UINT_MAX }

/-- What the spec expects a recycled descriptor to look like: every
field zero except the segment handle, which is INVALID (UINT_MAX). -/
def zeroedFreeChunkRecord : GpuStoreChunk :=
  { hash := 0, database_oid := 0, table_oid := 0, xmax := 0, xmin := 0,
    cid := 0, xmax_commited := false, xmin_commited := false,
    kds_nitems := 0, kds_length := 0, cuda_dindex := 0, ipc_mhandle := 0,
    dsm_handle := UINT_MAX }

/- ---------------------------------------------------------------------
   GpuStoreHead: the shared chunk directory.  active_chunks has
   GSTORE_CHUNK_HASH_NSLOTS buckets; a chunk with hash h lives in
   bucket h % GSTORE_CHUNK_HASH_NSLOTS.
   --------------------------------------------------------------------- -/

structure GpuStoreHead where
  has_warm_chunks : Nat
  free_chunks : List GpuStoreChunk
  active_chunks : List (List GpuStoreChunk)
deriving DecidableEq

inductive GErr where
  | resourceExhausted
  | constraintViolation
  | featureNotSupported
deriving DecidableEq

/- ---------------------------------------------------------------------
   Column-buffer builder (gstoreLoadState, lines 653-720 and 1005-1202).
   The builder is generic over the varlena datum representation D:
   the source treats a varlena datum as opaque bytes with a size
   (VARSIZE_ANY) and byte equality (vl_dict_compare).
   --------------------------------------------------------------------- -/

/-- One column of the foreign table: attlen/attalign/attnotnull as the
builder reads them from the tuple descriptor; attlen < 0 (varlena) is a
separate constructor. -/
inductive ColType where
  | fixed (attlen : Nat) (attalign : Nat) (attnotnull : Bool)
  | varlena (attnotnull : Bool)
deriving DecidableEq

def ColType.notnullFlag : ColType → Bool
  | .fixed _ _ nn => nn
  | .varlena nn => nn

/-- A value bound for one column of an inserted row. -/
inductive Cell (D : Type) where
  | null
  | ival (v : Nat)
  | vval (d : D)
deriving DecidableEq

def cellIsNull {D : Type} : Cell D → Bool
  | .null => true
  | _ => false

/-- The varlena datum interface the builder relies on: VARSIZE_ANY and
the vl_dict_compare equality (size plus byte comparison). -/
structure VlRep (D : Type) where
  vsize : D → Nat
  deq : D → D → Bool

/-- Per-column builder state (gstoreLoadState.a[i]).  vl_dict keeps the
unique datums in insertion order (the source's hash table, with its
iteration order fixed to insertion order); vvalues holds per-row dict
indices (the source's dict-entry pointers), fvalues per-row fixed
values.  For a NULL row the source leaves the fixed-value slot and the
dict pointer uninitialized; they are modelled as 0 and none, and the
read path never reaches them through the null checks. -/
structure ColState (D : Type) where
  vl_dict : List D
  extra_sz : Nat
  nullmap : Option (List Bool)
  fvalues : List Nat
  vvalues : List (Option Nat)
deriving DecidableEq

structure LoadState (D : Type) where
  length : Nat
  nrooms : Nat
  nitems : Nat
  cols : List (ColState D)
deriving DecidableEq

/-- A chunk as the builder hands it to the writer: the row count and a
snapshot of the per-column buffers. -/
structure BChunk (D : Type) where
  nitems : Nat
  cols : List (ColState D)
deriving DecidableEq

/-- Modelled from the spec: offsetof(kern_data_store, colmeta[natts]),
the columnar image header.  kern_data_store and kern_colmeta are
declared in headers outside src/; the spec (§4.4) only says the budget
is B minus headers, so a 64-byte head plus 32 bytes of kern_colmeta per
column is assumed. -/
def kdsHeaderSize (natts : Nat) : Nat := 64 + 32 * natts

/-- Per-row unit size used for the nrooms bound (lines 1018-1041):
aligned element size for fixed width, one cl_uint offset slot for
varlena. -/
def colUnitSz : ColType → Nat
  | .fixed w a _ => typealign a w
  | .varlena _ => 4

def initColState {D : Type} : ColState D :=
  { vl_dict := [], extra_sz := 0, nullmap := none, fvalues := [], vvalues := [] }

/-- gstoreBeginForeignModify (lines 1005-1062): available length is the
chunk budget minus the image header; nrooms divides out an alignment
margin of MAXIMUM_ALIGNOF per column. -/
def mkLoadState (D : Type) (schema : List ColType) : LoadState D :=
  let len := GPUSTORE_CHUNK_SIZE - kdsHeaderSize schema.length
  let unitsz := (schema.map colUnitSz).sum
  { length := len,
    nrooms := (len - MAXIMUM_ALIGNOF * schema.length) / unitsz,
    nitems := 0,
    cols := schema.map (fun _ => initColState) }

/-- The per-column usage estimate of gstoreExecForeignInsert
(lines 1088-1114): varlena counts this row's offset slot plus the
dictionary growth if the datum is new; fixed width counts the whole
value array for nitems+1 rows plus the whole nullmap when one exists or
this cell is null. -/
def cellUsage {D : Type} (rep : VlRep D) (nitems : Nat)
    (t : ColType) (cs : ColState D) (cell : Cell D) : Nat :=
  match t with
  | .varlena _ =>
      (match cell with
       | .vval d =>
          if cs.vl_dict.any (fun e => rep.deq d e) then 0
          else maxalign (rep.vsize d)
       | _ => 0) + 4
  | .fixed w a _ =>
      (if cs.nullmap.isSome || cellIsNull cell then maxalign (bitmaplen (nitems + 1)) else 0)
      + typealign a w * (nitems + 1)

def rowUsage {D : Type} (rep : VlRep D) (nitems : Nat) :
    List ColType → List (ColState D) → List (Cell D) → Nat
  | t :: ts, cs :: css, cell :: cells =>
      cellUsage rep nitems t cs cell + rowUsage rep nitems ts css cells
  | _, _, _ => 0

/-- The value-writing half of gstoreExecForeignInsert for one column
(lines 1120-1200).  On the first NULL the nullmap is created with all
prior bits set (memset -1); NOT NULL violations raise an error; a new
varlena datum is copied into the dictionary and extra_sz grows by its
MAXALIGNed size. -/
def writeCell {D : Type} (rep : VlRep D) (t : ColType) (cs : ColState D)
    (index : Nat) (cell : Cell D) : Except GErr (ColState D) :=
  match cell with
  | .null =>
      if t.notnullFlag then .error .constraintViolation
      else
        let nm : List Bool :=
          match cs.nullmap with
          | none => List.replicate index true ++ [false]
          | some bits => bits ++ [false]
        match t with
        | .fixed _ _ _ => .ok { cs with nullmap := some nm, fvalues := cs.fvalues ++ [0] }
        | .varlena _ => .ok { cs with nullmap := some nm, vvalues := cs.vvalues ++ [none] }
  | .ival v =>
      match t with
      | .fixed _ _ _ =>
          .ok { cs with nullmap := cs.nullmap.map (fun bits => bits ++ [true]),
                        fvalues := cs.fvalues ++ [v] }
      | .varlena _ => .error .featureNotSupported
  | .vval d =>
      match t with
      | .varlena _ =>
          let nm := cs.nullmap.map (fun bits => bits ++ [true])
          match cs.vl_dict.findIdx? (fun e => rep.deq d e) with
          | some i => .ok { cs with nullmap := nm, vvalues := cs.vvalues ++ [some i] }
          | none =>
              let cs1 : ColState D :=
                { cs with nullmap := nm, vl_dict := cs.vl_dict ++ [d],
                          extra_sz := cs.extra_sz + maxalign (rep.vsize d),
                          vvalues := cs.vvalues ++ [some cs.vl_dict.length] }
              .ok cs1
      | .fixed _ _ _ => .error .featureNotSupported

def writeCells {D : Type} (rep : VlRep D) :
    List ColType → List (ColState D) → Nat → List (Cell D) →
    Except GErr (List (ColState D))
  | t :: ts, cs :: css, index, cell :: cells =>
      match writeCell rep t cs index cell with
      | .error e => .error e
      | .ok cs1 =>
          match writeCells rep ts css index cells with
          | .error e => .error e
          | .ok rest => .ok (cs1 :: rest)
  | _, _, _, _ => .ok []

/-- The builder reset after a writeout (lines 917-929): the dictionary
is rebuilt empty, the nullmap freed, nitems cleared at the LoadState
level; the source does NOT clear extra_sz, which is kept faithfully. -/
def resetCol {D : Type} (cs : ColState D) : ColState D :=
  { vl_dict := [], extra_sz := cs.extra_sz, nullmap := none,
    fvalues := [], vvalues := [] }

/-- gstoreExecForeignInsert (lines 1069-1202): estimate the usage, flush
the current buffers as a chunk when it exceeds the available length,
then write the row at the next index. -/
def gstoreExecForeignInsert {D : Type} (rep : VlRep D) (schema : List ColType)
    (st : LoadState D) (row : List (Cell D)) :
    Except GErr (LoadState D × List (BChunk D)) :=
  let usage := rowUsage rep st.nitems schema st.cols row
  let flushed : LoadState D × List (BChunk D) :=
    if st.length < usage then
      ({ st with nitems := 0, cols := st.cols.map resetCol },
       [{ nitems := st.nitems, cols := st.cols }])
    else (st, [])
  match writeCells rep schema flushed.1.cols flushed.1.nitems row with
  | .error e => .error e
  | .ok cols1 =>
      .ok ({ flushed.1 with nitems := flushed.1.nitems + 1, cols := cols1 },
           flushed.2)

def runInserts {D : Type} (rep : VlRep D) (schema : List ColType) :
    LoadState D → List (List (Cell D)) →
    Except GErr (LoadState D × List (BChunk D))
  | st, [] => .ok (st, [])
  | st, row :: rows =>
      match gstoreExecForeignInsert rep schema st row with
      | .error e => .error e
      | .ok (st1, em1) =>
          match runInserts rep schema st1 rows with
          | .error e => .error e
          | .ok (st2, em2) => .ok (st2, em1 ++ em2)

/-- One full load session: begin_insert, the row stream, end_insert
(gstoreEndForeignModify flushes a final chunk only when nitems > 0).
The result is the list of chunks written out, in order. -/
def insertSession {D : Type} (rep : VlRep D) (schema : List ColType)
    (rows : List (List (Cell D))) : Except GErr (List (BChunk D)) :=
  match runInserts rep schema (mkLoadState D schema) rows with
  | .error e => .error e
  | .ok (st, emitted) =>
      .ok (emitted ++ (if 0 < st.nitems then [{ nitems := st.nitems, cols := st.cols }] else []))

/- ---------------------------------------------------------------------
   gstore_fdw_writeout_chunk, image-length computation (lines 746-764)
   and the directory step under the lock (lines 883-915).
   --------------------------------------------------------------------- -/

/-- Image bytes one column contributes (lines 748-764): offset array
plus dictionary blob for varlena; value array plus optional nullmap for
fixed width. -/
def colImageSz {D : Type} (nitems : Nat) : ColType → ColState D → Nat
  | .varlena _, cs => maxalign (4 * nitems) + cs.extra_sz
  | .fixed w a _, cs =>
      (if cs.nullmap.isSome then maxalign (bitmaplen nitems) else 0)
      + maxalign (typealign a w * nitems)

def colImageSzList {D : Type} (nitems : Nat) :
    List ColType → List (ColState D) → Nat
  | t :: ts, cs :: css => colImageSz nitems t cs + colImageSzList nitems ts css
  | _, _ => 0

/-- The total image length gstore_fdw_writeout_chunk computes and hands
to dsm_create: MAXALIGNed header plus the per-column blocks. -/
def imageLength {D : Type} (schema : List ColType) (cols : List (ColState D))
    (nitems : Nat) : Nat :=
  maxalign (kdsHeaderSize schema.length) + colImageSzList nitems schema cols

/-- The call-site facts the directory step needs: whether a GPU
allocation was made ('pinning' mode), the CRC hash of (database, table)
and the ids the new descriptor is stamped with. -/
structure WriteCtx where
  hasGpu : Bool
  hash : Nat
  database_oid : Nat
  table_oid : Nat
  xid : Nat
  cid : Nat
  cuda_dindex : Int
  ipc_mhandle : Nat
  dsm_handle : Nat
deriving DecidableEq

structure WriteoutResult (D : Type) where
  state : LoadState D
  head : GpuStoreHead
  err : Option GErr
  gpuFreed : Bool
deriving DecidableEq

/-- gstore_fdw_writeout_chunk, directory step (lines 883-930): with the
free list empty, release the GPU allocation (if any) and raise
ResourceExhausted, leaving the directory untouched; otherwise pop a
free descriptor, fully clear and repopulate it, link it to the tail of
its hash bucket, bump has_warm_chunks, and reset the builder. -/
def gstore_fdw_writeout_chunk {D : Type} (schema : List ColType) (ctx : WriteCtx)
    (st : LoadState D) (h : GpuStoreHead) : WriteoutResult D :=
  let len := imageLength schema st.cols st.nitems
  match h.free_chunks with
  | [] => { state := st, head := h, err := some .resourceExhausted, gpuFreed := ctx.hasGpu }
  | _ :: rest =>
      let c : GpuStoreChunk :=
        { hash := ctx.hash, database_oid := ctx.database_oid,
          table_oid := ctx.table_oid, xmax := InvalidTransactionId,
          xmin := ctx.xid, cid := ctx.cid,
          xmax_commited := false, xmin_commited := false,
          kds_nitems := st.nitems, kds_length := len,
          cuda_dindex := ctx.cuda_dindex, ipc_mhandle := ctx.ipc_mhandle,
          dsm_handle := ctx.dsm_handle }
      let i := ctx.hash % GSTORE_CHUNK_HASH_NSLOTS
      { state := { st with nitems := 0, cols := st.cols.map resetCol },
        head := { has_warm_chunks := h.has_warm_chunks + 1,
                  free_chunks := rest,
                  active_chunks := h.active_chunks.set i ((h.active_chunks.getD i []) ++ [c]) },
        err := none, gpuFreed := false }

/-- gstoreEndForeignModify (lines 1219-1229): write out a final chunk
only when at least one row is buffered.  The Bool records whether a
writeout (and with it a dsm_create) happened at all. -/
def gstoreEndForeignModify {D : Type} (schema : List ColType) (ctx : WriteCtx)
    (st : LoadState D) (h : GpuStoreHead) : WriteoutResult D × Bool :=
  if 0 < st.nitems then (gstore_fdw_writeout_chunk schema ctx st h, true)
  else ({ state := st, head := h, err := none, gpuFreed := false }, false)

/- ---------------------------------------------------------------------
   Transaction hook (gstoreOnXactCallbackPerChunk lines 1288-1345 and
   gstoreXactCallback lines 1350-1388).  TransactionIdPrecedes on the
   normal xids compared here is plain <.
   --------------------------------------------------------------------- -/

/-- The xmax clause of the hook on abort: a deletion by the aborting
transaction is undone by clearing xmax. -/
def abortClearXmax (isCur : Nat → Bool) (c : GpuStoreChunk) : GpuStoreChunk :=
  if isCur c.xmax then { c with xmax := InvalidTransactionId } else c

/-- One chunk of the hook walk.  Result: the warm flag, and either the
chunk as it stays on its active bucket (inl) or the record pushed onto
free_chunks after release (inr). -/
def gstoreOnXactCallbackPerChunk (isCommit : Bool) (isCur : Nat → Bool)
    (oldestXmin : Nat) (c : GpuStoreChunk) :
    Bool × (GpuStoreChunk ⊕ GpuStoreChunk) :=
  let c1 := if isCur c.xmax then
              (if isCommit then { c with xmax_commited := true }
               else { c with xmax := InvalidTransactionId })
            else c
  if isCur c1.xmin ∧ isCommit = false then (false, .inr (releaseChunkRecord c1))
  else
    let c2 := if isCur c1.xmin then { c1 with xmin_commited := true } else c1
    if transactionIdIsValid c2.xmax then
      (if c2.xmax_commited = false then (true, .inl c2)
      else if ¬ c2.xmax < oldestXmin then (true, .inl c2)
      else (false, .inr (releaseChunkRecord c2)))
    else if transactionIdIsNormal c2.xmin then
      (if c2.xmin_commited = false then (true, .inl c2)
      else if ¬ c2.xmin < oldestXmin then (true, .inl c2)
      else (false, .inl { c2 with xmin := FrozenTransactionId }))
    else if c2.xmin = InvalidTransactionId then (false, .inr (releaseChunkRecord c2))
    else (false, .inl c2)

/-- Walk one active bucket in iteration order; collect the kept chunks,
the released records (in release order) and whether any chunk is still
warm. -/
def xactWalkBucket (isCommit : Bool) (isCur : Nat → Bool) (oldestXmin : Nat) :
    List GpuStoreChunk → List GpuStoreChunk × List GpuStoreChunk × Bool
  | [] => ([], [], false)
  | c :: cs =>
      let r := gstoreOnXactCallbackPerChunk isCommit isCur oldestXmin c
      let rest := xactWalkBucket isCommit isCur oldestXmin cs
      match r.2 with
      | .inl k => (k :: rest.1, rest.2.1, r.1 || rest.2.2)
      | .inr f => (rest.1, f :: rest.2.1, r.1 || rest.2.2)

/-- gstoreXactCallback on a commit/abort event: early return when
has_warm_chunks is 0; otherwise walk every bucket, push each released
record onto the head of free_chunks (so the walk order ends up
reversed), and reset the warm counter when nothing stayed warm. -/
def gstoreXactCallback (isCommit : Bool) (isCur : Nat → Bool) (oldestXmin : Nat)
    (h : GpuStoreHead) : GpuStoreHead :=
  if h.has_warm_chunks = 0 then h
  else
    let rs := h.active_chunks.map (xactWalkBucket isCommit isCur oldestXmin)
    let warm := rs.any (fun r => r.2.2)
    { has_warm_chunks := if warm then h.has_warm_chunks else 0,
      free_chunks := (rs.map (fun r => r.2.1)).flatten.reverse ++ h.free_chunks,
      active_chunks := rs.map (fun r => r.1) }

/- ---------------------------------------------------------------------
   Byte-level materialization of a chunk image (lines 766-827) and the
   row read-back of gstoreIterateForeignScan (lines 482-563), for the
   varlena representation D = List Nat: a datum is its raw byte image,
   VARSIZE_ANY is its length, and its first byte holds that size (a
   one-byte varlena header model), which is how the read path recovers
   the datum length from memory.
   --------------------------------------------------------------------- -/

/-- The DSM segment is modelled as a byte store; dsm_create gives
zero-filled memory. -/
abbrev Mem := Nat → Nat

def writeBytes (m : Mem) (off : Nat) : List Nat → Mem
  | [] => m
  | b :: bs => writeBytes (fun a => if a = off then b else m a) (off + 1) bs

def zeroMem : Mem := fun _ => 0

/-- Little-endian byte image of a w-byte fixed-width value. -/
def natLE (w v : Nat) : List Nat := (List.range w).map (fun k => v / 256 ^ k % 256)

def readLE (m : Mem) (a w : Nat) : Nat :=
  ((List.range w).map (fun k => m (a + k) * 256 ^ k)).sum

def readU32 (m : Mem) (a : Nat) : Nat := readLE m a 4

/-- Read a varlena datum back from memory: its first byte is its size. -/
def readVarlenaBytes (m : Mem) (a : Nat) : List Nat :=
  (List.range (m a)).map (fun k => m (a + k))

/-- The per-column metadata of the image (kern_colmeta as the read path
uses it): the column type, values_offset and extra_sz. -/
structure KColMeta where
  ctype : ColType
  values_offset : Nat
  extra_sz : Nat
deriving DecidableEq

/-- Offsets the dictionary walk assigns (lines 790-799): the extra area
starts at MAXALIGN(4 * nitems) past the offset array base, and each
entry advances it by its MAXALIGNed size; offsets are relative to the
base. -/
def dictEntryOffsets (pos : Nat) : List (List Nat) → List Nat
  | [] => []
  | e :: es => pos :: dictEntryOffsets (pos + maxalign e.length) es

def writeDictBlob (m : Mem) (base : Nat) : List (List Nat) → List Nat → Mem
  | e :: es, o :: os => writeDictBlob (writeBytes m (base + o) e) base es os
  | _, _ => m

def writeOffsetArray (m : Mem) (base j : Nat) : List Nat → Mem
  | [] => m
  | v :: vs => writeOffsetArray (writeBytes m (base + 4 * j) (natLE 4 v)) base (j + 1) vs

/-- The per-row offset slots (lines 801-807): 0 for NULL, otherwise the
dictionary entry's assigned offset. -/
def vvalueOffsets (offs : List Nat) (vv : List (Option Nat)) : List Nat :=
  vv.map (fun o => match o with | none => 0 | some i => offs.getD i 0)

/-- Byte image of a fixed-width value array with stride
TYPEALIGN(align, attlen); padding bytes are materialized as 0. -/
def fixedValueBytes (w unitsz : Nat) (vals : List Nat) : List Nat :=
  (vals.map (fun v => natLE w v ++ List.replicate (unitsz - w) 0)).flatten

/-- Byte image of the null bitmap: bit i set means row i is not null;
bits at or past nitems are materialized as 0 (the read path only ever
tests bits below nitems). -/
def nullmapBytes (n : Nat) (bits : List Bool) : List Nat :=
  (List.range (bitmaplen n)).map (fun j =>
    ((List.range 8).map (fun k =>
        if 8 * j + k < n ∧ bits.getD (8 * j + k) false then 2 ^ k else 0)).sum)

/-- The column store loop of gstore_fdw_writeout_chunk (lines 774-826),
writing each column at the running offset.  Faithful to the source, the
varlena arm does NOT advance the running offset after laying down its
offset array and dictionary blob; only the fixed-width arm advances
it.  Writes happen in program order, later writes win. -/
def materializeCols (m : Mem) (off nitems : Nat) :
    List (ColType × ColState (List Nat)) → Mem × List KColMeta
  | [] => (m, [])
  | (t, cs) :: rest =>
      match t with
      | .varlena _ =>
          let base := off
          let offs := dictEntryOffsets (maxalign (4 * nitems)) cs.vl_dict
          let m1 := writeDictBlob m base cs.vl_dict offs
          let m2 := writeOffsetArray m1 base 0 (vvalueOffsets offs (cs.vvalues.take nitems))
          let meta : KColMeta :=
            { ctype := t, values_offset := base,
              extra_sz := (cs.vl_dict.map (fun e => maxalign e.length)).sum }
          let r := materializeCols m2 off nitems rest
          (r.1, meta :: r.2)
      | .fixed w a _ =>
          let unitsz := typealign a w
          let m1 := writeBytes m off (fixedValueBytes w unitsz (cs.fvalues.take nitems))
          let off1 := off + maxalign (unitsz * nitems)
          match cs.nullmap with
          | none =>
              let r := materializeCols m1 off1 nitems rest
              (r.1, ({ ctype := t, values_offset := off, extra_sz := 0 } : KColMeta) :: r.2)
          | some bits =>
              let m2 := writeBytes m1 off1 (nullmapBytes nitems bits)
              let r := materializeCols m2 (off1 + maxalign (bitmaplen nitems)) nitems rest
              (r.1, ({ ctype := t, values_offset := off,
                       extra_sz := bitmaplen nitems } : KColMeta) :: r.2)

def materializeImage (schema : List ColType) (ch : BChunk (List Nat)) :
    Mem × List KColMeta :=
  materializeCols zeroMem (maxalign (kdsHeaderSize schema.length)) ch.nitems
    (schema.zip ch.cols)

/-- att_isnull(idx, bits): the bit CLEAR means null. -/
def att_isnull (idx : Nat) (m : Mem) (nullAddr : Nat) : Bool :=
  decide (m (nullAddr + idx / 8) / 2 ^ (idx % 8) % 2 = 0)

/-- One column of one row as gstoreIterateForeignScan reads it
(lines 523-561): fixed width consults the nullmap when extra_sz > 0 and
the index is inside it (the nullmap sits at values_offset +
MAXALIGN(attlen * nitems), stride attlen); varlena reads the cl_uint
offset slot, 0 meaning NULL, and otherwise the datum at base+offset. -/
def scanColCell (m : Mem) (nitems idx : Nat) (meta : KColMeta) : Cell (List Nat) :=
  match meta.ctype with
  | .fixed w _ _ =>
      if 0 < meta.extra_sz ∧ idx < BITS_PER_BYTE * meta.extra_sz then
        (if att_isnull idx m (meta.values_offset + maxalign (w * nitems)) then .null
         else .ival (readLE m (meta.values_offset + w * idx) w))
      else .ival (readLE m (meta.values_offset + w * idx) w)
  | .varlena _ =>
      let off := readU32 m (meta.values_offset + 4 * idx)
      if off = 0 then .null
      else .vval (readVarlenaBytes m (meta.values_offset + off))

/-- All rows of a materialized chunk, in stored order. -/
def scanChunkRows (schema : List ColType) (ch : BChunk (List Nat)) :
    List (List (Cell (List Nat))) :=
  let r := materializeImage schema ch
  (List.range ch.nitems).map (fun idx => r.2.map (fun meta => scanColCell r.1 ch.nitems idx meta))

/- ---------------------------------------------------------------------
   The GUC knob (pgstrom_init_gstore_fdw, lines 1996-2005).
   --------------------------------------------------------------------- -/

def gstore_max_nchunks_default : Nat := 2048

def gstore_max_nchunks_min : Nat := 1024

def gstore_max_nchunks_max : Nat := 2147483647

/-- DefineCustomIntVariable range check for pg_strom.gstore_max_nchunks:
a value is accepted iff it lies within [minValue, maxValue]. -/
def gucAcceptsMaxNchunks (v : Nat) : Bool :=
  decide (gstore_max_nchunks_min ≤ v) && decide (v ≤ gstore_max_nchunks_max)

/- ---------------------------------------------------------------------
   Concrete instantiations used by the theorems.
   --------------------------------------------------------------------- -/

/-- Varlena datums as raw byte images: VARSIZE_ANY is the byte count,
equality is byte equality. -/
def vlRepBytes : VlRep (List Nat) := { vsize := List.length, deq := fun a b => a == b }

/-- Abstract varlena datums carrying an identity and a size, for claims
that only need sizes: VARSIZE_ANY is the second component. -/
def vlRepSized : VlRep (Nat × Nat) := { vsize := fun d => d.2, deq := fun a b => a == b }

def c1Schema : List ColType := [.varlena false, .fixed 4 4 false]

/-- One row for c1Schema: the text value is the byte image [2, 120]
(size byte 2 and one payload byte), the int4 value is 1. -/
def c1Row : List (Cell (List Nat)) := [.vval [2, 120], .ival 1]

def c4Sample : GpuStoreChunk :=
  { hash := 5, database_oid := 6, table_oid := 7, xmax := 11, xmin := 10,
    cid := 1, xmax_commited := true, xmin_commited := true,
    kds_nitems := 3, kds_length := 1000, cuda_dindex := -1,
    ipc_mhandle := 9, dsm_handle := 42 }

def c5Schema : List ColType := [.varlena false]

/-- Two distinct varlena datums of MAXALIGNed size 2^29 bytes each. -/
def c5Rows : List (List (Cell (Nat × Nat))) :=
  [[.vval (0, 2 ^ 29)], [.vval (1, 2 ^ 29)]]

def c6Schema : List ColType := [.fixed 4 4 false]

def c6Row : List (Cell (List Nat)) := [.ival 1]

/-- Available length for c6Schema: the budget minus the 1-column header. -/
def c6Len : Nat := GPUSTORE_CHUNK_SIZE - kdsHeaderSize 1

/-- nrooms for c6Schema as gstoreBeginForeignModify computes it. -/
def c6Nrooms : Nat := (c6Len - MAXIMUM_ALIGNOF * 1) / 4

def c6ColState (k : Nat) : ColState (List Nat) :=
  { vl_dict := [], extra_sz := 0, nullmap := none,
    fvalues := List.replicate k 1, vvalues := [] }

def c6State (k : Nat) : LoadState (List Nat) :=
  { length := c6Len, nrooms := c6Nrooms, nitems := k, cols := [c6ColState k] }

/-- A directory with an exhausted free list, for witnesses. -/
def emptyFreeHead : GpuStoreHead :=
  { has_warm_chunks := 1, free_chunks := [],
    active_chunks := List.replicate GSTORE_CHUNK_HASH_NSLOTS [] }

def sampleCtx : WriteCtx :=
  { hasGpu := true, hash := 3, database_oid := 6, table_oid := 7,
    xid := 10, cid := 1, cuda_dindex := 0, ipc_mhandle := 9, dsm_handle := 42 }

/-- One active chunk inserted by xid 10, for the C9 witness. -/
def c9Chunk : GpuStoreChunk :=
  { hash := 0, database_oid := 6, table_oid := 7, xmax := 0, xmin := 10,
    cid := 1, xmax_commited := false, xmin_commited := false,
    kds_nitems := 4, kds_length := 200, cuda_dindex := -1,
    ipc_mhandle := 0, dsm_handle := 17 }

def c9Head : GpuStoreHead :=
  { has_warm_chunks := 1, free_chunks := [], active_chunks := [[c9Chunk]] }

/-- The aborting transaction of the C9 witness is xid 10. -/
def c9IsCur : Nat → Bool := fun x => x == 10

/- =====================================================================
   Theorems.
   ===================================================================== -/

theorem specStep34_eq_visXmaxBlock (s : Snapshot) (c : GpuStoreChunk) :
    specMvccStep34 s c = visXmaxBlock s c := by
  cases c
  unfold specMvccStep34 visXmaxBlock specMvccStep5
  split_ifs <;> simp_all

/-- C2: gstore_fdw_satisfies_visibility computes exactly the five-step
short-circuit decision procedure of spec §4.3 — same visibility verdict
and the same side effects on the descriptor (hint bits set, invalid
xids cleared), for every descriptor and snapshot. -/
theorem c2_visibility_matches_spec (s : Snapshot) (c : GpuStoreChunk) :
    gstore_fdw_satisfies_visibility s c = specMvccVisibility s c := by
  cases c
  unfold gstore_fdw_satisfies_visibility specMvccVisibility visXminBlock specMvccStep2
  split_ifs <;> simp_all [specStep34_eq_visXmaxBlock]

theorem xmaxBlock_idem (s : Snapshot) (c : GpuStoreChunk) :
    visXmaxBlock s (visXmaxBlock s c).2 = visXmaxBlock s c := by
  obtain ⟨ch, db, tb, xmax, xmin, cid, xc, mc, ni, kl, di, im, dh⟩ := c
  by_cases hv : xmax = InvalidTransactionId <;>
  by_cases hcm : xc = false <;>
  by_cases hcu : s.isCurrentXid xmax <;>
  by_cases hp : s.curcid ≤ cid <;>
  by_cases hsn : s.inMVCCSnapshot xmax <;>
  by_cases hdc : s.didCommit xmax = false <;>
  simp [visXmaxBlock, hv, hcm, hcu, hp, hsn, hdc]

theorem xmaxBlock_keeps_xmin (s : Snapshot) (c : GpuStoreChunk) :
    (visXmaxBlock s c).2.xmin = c.xmin
      ∧ (visXmaxBlock s c).2.xmin_commited = c.xmin_commited := by
  obtain ⟨ch, db, tb, xmax, xmin, cid, xc, mc, ni, kl, di, im, dh⟩ := c
  unfold visXmaxBlock
  split_ifs <;> simp

theorem xminBlock_inl (s : Snapshot) (c : GpuStoreChunk) (r : Bool × GpuStoreChunk)
    (h : visXminBlock s c = .inl r) :
    gstore_fdw_satisfies_visibility s r.2 = r := by
  obtain ⟨ch, db, tb, xmax, xmin, cid, xc, mc, ni, kl, di, im, dh⟩ := c
  unfold visXminBlock at h
  dsimp only at h
  split_ifs at h <;>
    (injection h with h1; subst h1;
     simp [gstore_fdw_satisfies_visibility, visXminBlock, visXmaxBlock, *])

theorem xminBlock_inr_facts (s : Snapshot) (c c1 : GpuStoreChunk)
    (h : visXminBlock s c = .inr c1) :
    c1.xmin_commited = true
      ∧ ¬ (c1.xmin ≠ FrozenTransactionId ∧ s.inMVCCSnapshot c1.xmin) := by
  obtain ⟨ch, db, tb, xmax, xmin, cid, xc, mc, ni, kl, di, im, dh⟩ := c
  unfold visXminBlock at h
  dsimp only at h
  split_ifs at h <;>
    (injection h with h1; subst h1; simp_all)

theorem xminBlock_inr_of (s : Snapshot) (c : GpuStoreChunk)
    (h1 : c.xmin_commited = true)
    (h2 : ¬ (c.xmin ≠ FrozenTransactionId ∧ s.inMVCCSnapshot c.xmin)) :
    visXminBlock s c = .inr c := by
  unfold visXminBlock
  simp [h1, h2]

/-- C3: the MVCC filter is idempotent — re-running it on the descriptor
it produced returns the same decision and leaves the descriptor exactly
as it was (no further xmin/xmax clearing, no further hint changes),
for every descriptor and snapshot. -/
theorem c3_visibility_idempotent (s : Snapshot) (c : GpuStoreChunk) :
    gstore_fdw_satisfies_visibility s (gstore_fdw_satisfies_visibility s c).2
      = gstore_fdw_satisfies_visibility s c := by
  rcases hx : visXminBlock s c with r | c1
  · have h1 : gstore_fdw_satisfies_visibility s c = r := by
      simp [gstore_fdw_satisfies_visibility, hx]
    rw [h1]
    exact xminBlock_inl s c r hx
  · have h1 : gstore_fdw_satisfies_visibility s c = visXmaxBlock s c1 := by
      simp [gstore_fdw_satisfies_visibility, hx]
    obtain ⟨hcm, hg⟩ := xminBlock_inr_facts s c c1 hx
    have hk := xmaxBlock_keeps_xmin s c1
    have h2 : visXminBlock s (visXmaxBlock s c1).2 = .inr (visXmaxBlock s c1).2 := by
      apply xminBlock_inr_of
      · rw [hk.2]; exact hcm
      · rw [hk.1]; exact hg
    rw [h1]
    have h3 : gstore_fdw_satisfies_visibility s (visXmaxBlock s c1).2
        = visXmaxBlock s (visXmaxBlock s c1).2 := by
      simp [gstore_fdw_satisfies_visibility, h2]
    rw [h3]
    exact xmaxBlock_idem s c1

/-- C4: releasing a descriptor does NOT zero it.  The memset in
gstore_fdw_release_chunk covers only sizeof(GpuStoreMap) = 8 bytes (a
slip: the wrong struct), which lie inside the 16-byte list link, so on
a recycled free-list slot the stale hash, table id, xmin, xmax and
nitems all survive; only dsm_handle is reset (to UINT_MAX). -/
theorem c4_release_keeps_stale_fields :
    releaseChunkRecord c4Sample ≠ zeroedFreeChunkRecord
    ∧ (releaseChunkRecord c4Sample).hash = 5
    ∧ (releaseChunkRecord c4Sample).table_oid = 7
    ∧ (releaseChunkRecord c4Sample).xmin = 10
    ∧ (releaseChunkRecord c4Sample).xmax = 11
    ∧ (releaseChunkRecord c4Sample).kds_nitems = 3
    ∧ (releaseChunkRecord c4Sample).dsm_handle = UINT_MAX := by
  decide

/-- C5: the usage estimate of gstoreExecForeignInsert counts, for a
varlena column, only the current row's increment (offset slot plus new
dictionary bytes) and never the accumulated chunk usage, so no flush
happens, and the single materialized image of two 2^29-byte datums has
length 2^30 + 104 > GPUSTORE_CHUNK_SIZE: the 1 GiB budget is exceeded. -/
theorem c5_image_exceeds_budget :
    (insertSession vlRepSized c5Schema c5Rows).map
        (fun chs => chs.map (fun ch => imageLength c5Schema ch.cols ch.nitems))
      = .ok [2 ^ 30 + 104]
    ∧ GPUSTORE_CHUNK_SIZE < 2 ^ 30 + 104 := by
  exact ⟨by rfl, by decide⟩

/-- The writeout directory step with an exhausted free list: error out
with ResourceExhausted, free the GPU allocation already made, touch
neither the directory nor the builder state. -/
theorem writeoutExhausted {D : Type} (schema : List ColType) (ctx : WriteCtx)
    (st : LoadState D) (h : GpuStoreHead) (he : h.free_chunks = []) :
    gstore_fdw_writeout_chunk schema ctx st h
      = { state := st, head := h, err := some .resourceExhausted,
          gpuFreed := ctx.hasGpu } := by
  unfold gstore_fdw_writeout_chunk
  rw [he]

/-- C8: when the chunk writer finds free_chunks empty it raises
ResourceExhausted, releases the GPU allocation already made (gpuFreed
equals hasGpu), and the directory is returned exactly as it was: no
descriptor popped, none linked, free and active lists unchanged. -/
theorem c8_writeout_free_list_empty {D : Type} (schema : List ColType)
    (ctx : WriteCtx) (st : LoadState D) (h : GpuStoreHead)
    (he : h.free_chunks = []) :
    gstore_fdw_writeout_chunk schema ctx st h
      = { state := st, head := h, err := some .resourceExhausted,
          gpuFreed := ctx.hasGpu } :=
  writeoutExhausted schema ctx st h he

theorem c8_writeout_free_list_empty_witness :
    emptyFreeHead.free_chunks = []
    ∧ gstore_fdw_writeout_chunk c1Schema sampleCtx (mkLoadState (List Nat) c1Schema) emptyFreeHead
      = { state := mkLoadState (List Nat) c1Schema, head := emptyFreeHead,
          err := some .resourceExhausted, gpuFreed := sampleCtx.hasGpu } :=
  ⟨rfl, c8_writeout_free_list_empty c1Schema sampleCtx (mkLoadState (List Nat) c1Schema)
          emptyFreeHead rfl⟩

/-- C7 counterexample: the claim says the knob accepts any positive
integer, in particular 2; the GUC's minimum is 1024, so 2 is refused. -/
theorem c7_counterexample : 0 < 2 ∧ gucAcceptsMaxNchunks 2 = false := by
  decide

/-- C7 (amended): pg_strom.gstore_max_nchunks accepts exactly the
integers in [1024, INT_MAX] (default 2048, so 2 is refused), and
whenever the descriptor free list is exhausted a further chunk writeout
fails with ResourceExhausted without linking any descriptor. -/
theorem c7_amended :
    (∀ v : Nat, gucAcceptsMaxNchunks v = true
        ↔ (gstore_max_nchunks_min ≤ v ∧ v ≤ gstore_max_nchunks_max))
    ∧ gucAcceptsMaxNchunks gstore_max_nchunks_default = true
    ∧ gucAcceptsMaxNchunks 2 = false
    ∧ (∀ (D : Type) (schema : List ColType) (ctx : WriteCtx)
        (st : LoadState D) (h : GpuStoreHead), h.free_chunks = [] →
        (gstore_fdw_writeout_chunk schema ctx st h).err = some .resourceExhausted
        ∧ (gstore_fdw_writeout_chunk schema ctx st h).head = h) := by
  refine ⟨?_, by decide, by decide, ?_⟩
  · intro v
    simp [gucAcceptsMaxNchunks]
  · intro D schema ctx st h he
    rw [writeoutExhausted schema ctx st h he]
    exact ⟨rfl, rfl⟩

theorem c7_amended_witness :
    gucAcceptsMaxNchunks gstore_max_nchunks_default = true
    ∧ emptyFreeHead.free_chunks = []
    ∧ (gstore_fdw_writeout_chunk c1Schema sampleCtx (mkLoadState (List Nat) c1Schema)
        emptyFreeHead).err = some .resourceExhausted :=
  ⟨c7_amended.2.1, rfl,
   (c7_amended.2.2.2 (List Nat) c1Schema sampleCtx (mkLoadState (List Nat) c1Schema)
      emptyFreeHead rfl).1⟩

/-- C10: a load session that buffers zero rows creates no chunk:
gstoreEndForeignModify on the fresh begin-state performs no writeout
(the Bool is false, so no DSM segment is created), raises no error,
consumes no free descriptor and leaves the directory unchanged. -/
theorem c10_empty_insert_no_chunk (D : Type) (schema : List ColType)
    (ctx : WriteCtx) (h : GpuStoreHead) :
    gstoreEndForeignModify schema ctx (mkLoadState D schema) h
      = ({ state := mkLoadState D schema, head := h, err := none,
           gpuFreed := false }, false) := by
  rfl

theorem c6_init : mkLoadState (List Nat) c6Schema = c6State 0 := by
  rfl

theorem c6_step (k : Nat) (hk : 4 * (k + 1) ≤ c6Len) :
    gstoreExecForeignInsert vlRepBytes c6Schema (c6State k) c6Row
      = .ok (c6State (k + 1), []) := by
  have hu : rowUsage vlRepBytes (c6State k).nitems c6Schema (c6State k).cols c6Row
      = 4 * (k + 1) := by
    simp [rowUsage, cellUsage, c6Schema, c6Row, c6State, c6ColState, cellIsNull, typealign]
  have hnl : ¬ (c6State k).length < 4 * (k + 1) := by
    simp only [c6State]
    omega
  simp only [gstoreExecForeignInsert, hu, hnl, if_neg]
  simp [writeCells, writeCell, c6Schema, c6Row, c6State, c6ColState,
    List.replicate_succ']

theorem c6_run (j : Nat) : ∀ k : Nat, 4 * (k + j) ≤ c6Len →
    runInserts vlRepBytes c6Schema (c6State k) (List.replicate j c6Row)
      = .ok (c6State (k + j), []) := by
  induction j with
  | zero => intro k h; simp [runInserts]
  | succ n ih =>
      intro k h
      rw [List.replicate_succ]
      have h1 : 4 * (k + 1) ≤ c6Len := by omega
      have h2 : 4 * ((k + 1) + n) ≤ c6Len := by omega
      have he : k + 1 + n = k + (n + 1) := by omega
      simp only [runInserts, c6_step k h1, ih (k + 1) h2, he, List.append_nil]

theorem c6_session (m : Nat) (h1 : 0 < m) (h2 : 4 * m ≤ c6Len) :
    insertSession vlRepBytes c6Schema (List.replicate m c6Row)
      = .ok [{ nitems := m, cols := [c6ColState m] }] := by
  unfold insertSession
  rw [c6_init]
  have h0 : 4 * (0 + m) ≤ c6Len := by omega
  rw [c6_run m 0 h0]
  simp [c6State, h1]

/-- C6 counterexample: inserting nrooms + 1 rows of a single-int4 table
in one load session yields ONE chunk, not the two the claim states: the
usage check 4*(nitems+1) > length never fires because nrooms was
computed with an alignment margin of MAXIMUM_ALIGNOF * natts bytes
already subtracted. -/
theorem c6_counterexample :
    (insertSession vlRepBytes c6Schema (List.replicate (c6Nrooms + 1) c6Row)).map
        List.length = .ok 1
    ∧ (insertSession vlRepBytes c6Schema (List.replicate (c6Nrooms + 1) c6Row)).map
        List.length ≠ .ok 2 := by
  have h := c6_session (c6Nrooms + 1) (by omega) (by decide)
  rw [h]
  exact ⟨rfl, by simp [Except.map]⟩

/-- C6 (amended): for the single-int4 schema, any one-session load of m
rows with 1 ≤ m and 4 * m ≤ length = B - header produces exactly one
chunk; since 4 * (nrooms + 1) ≤ length thanks to the alignment margin
inside the nrooms computation, both nrooms and nrooms + 1 rows produce
exactly one chunk; a second chunk appears only when a row's usage
estimate exceeds the available length. -/
theorem c6_amended (m : Nat) (h1 : 0 < m) (h2 : 4 * m ≤ c6Len) :
    (insertSession vlRepBytes c6Schema (List.replicate m c6Row)).map List.length
      = .ok 1 := by
  rw [c6_session m h1 h2]
  rfl

theorem c6_amended_witness :
    0 < c6Nrooms + 1 ∧ 4 * (c6Nrooms + 1) ≤ c6Len
    ∧ (insertSession vlRepBytes c6Schema (List.replicate (c6Nrooms + 1) c6Row)).map
        List.length = .ok 1 :=
  ⟨by omega, by decide, c6_amended (c6Nrooms + 1) (by omega) (by decide)⟩

theorem perchunk_abort_released (isCur : Nat → Bool) (old : Nat)
    (c : GpuStoreChunk) (hc : isCur c.xmin = true) :
    gstoreOnXactCallbackPerChunk false isCur old c
      = (false, .inr (releaseChunkRecord (abortClearXmax isCur c))) := by
  obtain ⟨ch, db, tb, xmax, xmin, cid, xc, mc, ni, kl, di, im, dh⟩ := c
  unfold gstoreOnXactCallbackPerChunk abortClearXmax
  by_cases hx : isCur xmax <;> simp [hx, hc]

theorem perchunk_kept_not_current (isCur : Nat → Bool) (old : Nat)
    (c k : GpuStoreChunk) (w : Bool)
    (hf : isCur FrozenTransactionId = false)
    (hr : gstoreOnXactCallbackPerChunk false isCur old c = (w, .inl k)) :
    isCur k.xmin = false := by
  obtain ⟨ch, db, tb, xmax, xmin, cid, xc, mc, ni, kl, di, im, dh⟩ := c
  unfold gstoreOnXactCallbackPerChunk at hr
  dsimp only at hr
  by_cases hx : isCur xmax <;> by_cases hm : isCur xmin <;>
    simp only [hx, hm, if_true, if_false, Bool.false_eq_true] at hr <;>
    split_ifs at hr <;>
    simp_all [Prod.ext_iff] <;>
    (obtain ⟨hw, hk⟩ := hr; subst hk; simp_all)

theorem walk_kept_not_current (isCur : Nat → Bool) (old : Nat)
    (hf : isCur FrozenTransactionId = false) :
    ∀ (b : List GpuStoreChunk) (k : GpuStoreChunk),
      k ∈ (xactWalkBucket false isCur old b).1 → isCur k.xmin = false := by
  intro b
  induction b with
  | nil => intro k hk; simp [xactWalkBucket] at hk
  | cons c cs ih =>
      intro k hk
      rcases hr : gstoreOnXactCallbackPerChunk false isCur old c with ⟨w, kc | fc⟩ <;>
        simp only [xactWalkBucket, hr] at hk
      · rcases List.mem_cons.mp hk with h | h
        · subst h; exact perchunk_kept_not_current isCur old c k w hf hr
        · exact ih k h
      · exact ih k hk

theorem walk_released_mem (isCur : Nat → Bool) (old : Nat) :
    ∀ (b : List GpuStoreChunk) (c : GpuStoreChunk), c ∈ b → isCur c.xmin = true →
      releaseChunkRecord (abortClearXmax isCur c)
        ∈ (xactWalkBucket false isCur old b).2.1 := by
  intro b
  induction b with
  | nil => intro c hc; simp at hc
  | cons c0 cs ih =>
      intro c hc hcur
      rcases List.mem_cons.mp hc with h | h
      · subst h
        rw [show xactWalkBucket false isCur old (c :: cs)
              = ((xactWalkBucket false isCur old cs).1,
                 releaseChunkRecord (abortClearXmax isCur c)
                   :: (xactWalkBucket false isCur old cs).2.1,
                 false || (xactWalkBucket false isCur old cs).2.2) from by
            simp only [xactWalkBucket, perchunk_abort_released isCur old c hcur]]
        exact List.mem_cons_self _ _
      · rcases hr : gstoreOnXactCallbackPerChunk false isCur old c0 with ⟨w, kc | fc⟩ <;>
          simp only [xactWalkBucket, hr] <;>
          [exact ih c h hcur; exact List.mem_cons_of_mem _ (ih c h hcur)]

/-- C9: after the transaction hook runs on abort (with a nonzero warm
counter, which every published chunk guarantees, and the aborting
transaction being a normal xid, never FROZEN), no chunk on any active
bucket has the aborting transaction as xmin, and every chunk the
transaction had published — after the xmax clause possibly cleared a
self-deletion — is found released on the free list. -/
theorem c9_abort_releases (isCur : Nat → Bool) (old : Nat) (h : GpuStoreHead)
    (hw : ¬ h.has_warm_chunks = 0) (hf : isCur FrozenTransactionId = false) :
    (∀ b ∈ (gstoreXactCallback false isCur old h).active_chunks,
        ∀ k ∈ b, isCur k.xmin = false)
    ∧ (∀ b ∈ h.active_chunks, ∀ c ∈ b, isCur c.xmin = true →
        releaseChunkRecord (abortClearXmax isCur c)
          ∈ (gstoreXactCallback false isCur old h).free_chunks) := by
  unfold gstoreXactCallback
  rw [if_neg hw]
  constructor
  · intro b hb k hk
    simp only [List.mem_map] at hb
    obtain ⟨r, ⟨b0, hb0, rfl⟩, rfl⟩ := hb
    exact walk_kept_not_current isCur old hf b0 k hk
  · intro b hb c hc hcur
    have hmem := walk_released_mem isCur old b c hc hcur
    simp only [List.mem_append, List.mem_reverse, List.mem_flatten, List.mem_map]
    left
    exact ⟨(xactWalkBucket false isCur old b).2.1,
           ⟨xactWalkBucket false isCur old b, ⟨b, hb, rfl⟩, rfl⟩, hmem⟩

theorem c9_abort_releases_witness :
    ¬ c9Head.has_warm_chunks = 0
    ∧ c9IsCur FrozenTransactionId = false
    ∧ releaseChunkRecord (abortClearXmax c9IsCur c9Chunk)
        ∈ (gstoreXactCallback false c9IsCur 0 c9Head).free_chunks :=
  ⟨by decide, by decide,
   (c9_abort_releases c9IsCur 0 c9Head (by decide) (by decide)).2
     [c9Chunk] (by decide) c9Chunk (by decide) (by decide)⟩

/-- C1: the insert-then-scan round trip FAILS for a table whose
variable-width column precedes a fixed-width one.  The writeout loop
never advances the running offset after a varlena column, so both
columns of (text, int4) get values_offset 128; the int4 store
overwrites the text column's offset array, and scanning the single row
('x' as bytes [2, 120], 1) returns a corrupt text value (the empty
byte image, from offset slot 1) instead of the inserted one. -/
theorem c1_roundtrip_broken :
    (insertSession vlRepBytes c1Schema [c1Row]).map
        (fun chs => chs.map (scanChunkRows c1Schema))
      = .ok [[[Cell.vval [], Cell.ival 1]]]
    ∧ [Cell.vval [], Cell.ival 1] ≠ c1Row
    ∧ (insertSession vlRepBytes c1Schema [c1Row]).map
        (fun chs => chs.map (fun ch =>
          (materializeImage c1Schema ch).2.map KColMeta.values_offset))
      = .ok [[128, 128]] := by
  refine ⟨by rfl, by decide, by rfl⟩

end GStore
